import Mathlib

/-!
Verification of the Synthea-to-Neo4j loader (src/load_synthea_to_neo4j.py).

The development shallowly embeds the loader: the property-graph store state,
the Cypher operations the loader issues (UNWIND/CREATE node templates,
MATCH/MERGE relationship statements, toFloat/toInteger coercion), the
pandas fillna step, the batch partitioning of `_load_in_batches`, and the
stage order of `load_all_data`.  Labels and relationship types are finite
enumerations whose constructor names are exactly the label and type strings
of the source; property keys, columns and cell values stay strings.
-/

namespace Synthea

/-- Node labels, one per entity type, named as in the source Cypher. -/
inductive Label where
  | Patient | Organization | Provider | Payer | Encounter
  | Condition | Medication | Procedure | Immunization | Observation
  | Allergy | CarePlan | Device | ImagingStudy | Supply
  | PayerTransition | Claim | ClaimTransaction
  deriving DecidableEq, Repr, Fintype

/-- Relationship types, one per MERGE statement in the source. -/
inductive RelType where
  | EMPLOYED_BY
  | HAD_ENCOUNTER | OCCURRED_AT | ATTENDED_BY | COVERED_BY
  | HAS_CONDITION | DIAGNOSED
  | PRESCRIBED | PRESCRIBED_MEDICATION | PAID_BY
  | UNDERWENT_PROCEDURE | PERFORMED_PROCEDURE
  | RECEIVED_IMMUNIZATION | ADMINISTERED_IMMUNIZATION
  | HAS_OBSERVATION | RECORDED_OBSERVATION
  | HAS_ALLERGY | DOCUMENTED_ALLERGY
  | HAS_CAREPLAN | INITIATED_CAREPLAN
  | USES_DEVICE | ASSOCIATED_DEVICE
  | HAD_IMAGING | CONDUCTED_IMAGING
  | USED_SUPPLY | CONSUMED_SUPPLY
  | HAD_COVERAGE | PRIMARY_PAYER | SECONDARY_PAYER
  | FILED_CLAIM | SUBMITTED_BY | PRIMARY_INSURANCE | SECONDARY_INSURANCE
  | FOR_ENCOUNTER
  | HAS_TRANSACTION | FOR_PATIENT | SERVICE_AT | PERFORMED_BY
  | DURING_ENCOUNTER
  deriving DecidableEq, Repr, Fintype

/-- A stored property value: Neo4j null, string, float (modelled as a
rational) or integer. -/
inductive PropValue where
  | VNull
  | VStr (s : String)
  | VFloat (q : Rat)
  | VInt (n : Int)
  deriving DecidableEq, Repr

/-- True on every value except the Neo4j null (note the empty string is a
value, not null). -/
def isNotNull : PropValue → Bool
  | .VNull => false
  | _ => true

/-! ### Numeric string parsing, modelling the Cypher builtins

`toFloat` and `toInteger` are Neo4j builtins: on a string they return the
parsed number, and null when the string is not a valid number (in
particular on the empty string); they never raise on string input, and on
null they return null. -/

/-- Digit-list value; meaningful only when every character is a digit. -/
def digitsToNat (cs : List Char) : Nat :=
  cs.foldl (fun a c => a * 10 + (c.toNat - 48)) 0

/-- Parse an unsigned decimal literal (digits with an optional fractional
part) to a rational; `none` when the characters are not a number. -/
def parseUnsigned (cs : List Char) : Option Rat :=
  match cs.splitOn '.' with
  | [ip] =>
      if ip.isEmpty then none
      else if ip.all Char.isDigit then some ((digitsToNat ip : Nat) : Rat)
      else none
  | [ip, fp] =>
      if ip.isEmpty && fp.isEmpty then none
      else if ip.all Char.isDigit && fp.all Char.isDigit then
        some (((digitsToNat ip : Nat) : Rat)
          + ((digitsToNat fp : Nat) : Rat) / ((10 : Rat) ^ fp.length))
      else none
  | _ => none

/-- Parse an optionally signed decimal literal. -/
def parseSigned (cs : List Char) : Option Rat :=
  match cs with
  | '-' :: rest => (parseUnsigned rest).map (fun q => -q)
  | '+' :: rest => parseUnsigned rest
  | _ => parseUnsigned cs

/-- Model of the Cypher `toFloat` builtin on a string argument. -/
def toFloatModel (s : String) : PropValue :=
  match parseSigned s.data with
  | some q => .VFloat q
  | none => .VNull

/-- Model of the Cypher `toInteger` builtin on a string argument
(truncation toward zero, as the Java long cast used by Neo4j). -/
def toIntegerModel (s : String) : PropValue :=
  match parseSigned s.data with
  | some q => .VInt (Int.tdiv q.num (q.den : Int))
  | none => .VNull

/-! ### Rows, templates and coercion -/

/-- One CSV row after `pd.read_csv`: an association of column names to
cells, where a `none` cell is a missing value (a pandas NaN) and a column
absent from the list is a column absent from the file. -/
abbrev Row := List (String × Option String)

/-- Cell access as the Cypher statement sees it after the
`df.fillna` call with the empty string (line 867): a NaN cell has become
the empty string, a present cell keeps its string, and an absent column
reads as null. -/
def cellVal (row : Row) (col : String) : Option String :=
  match row.lookup col with
  | none => none
  | some none => some ""
  | some (some s) => some s

/-- The three coercion kinds occurring in the node templates: plain
`row.COL` access, `toFloat(row.COL)` and `toInteger(row.COL)`. -/
inductive Kind where
  | identity
  | float
  | integer
  deriving DecidableEq, Repr

/-- Coerce one cell; an absent column is Cypher null and both builtins
propagate null. -/
def coerce (k : Kind) (c : Option String) : PropValue :=
  match k, c with
  | _, none => .VNull
  | .identity, some s => .VStr s
  | .float, some s => toFloatModel s
  | .integer, some s => toIntegerModel s

/-- A node template: the `(property, coercion, source column)` triples of
one CREATE map in the source. -/
abbrev Template := List (String × Kind × String)

/-- True exactly on the Neo4j null value. -/
def isNullV : PropValue → Bool
  | .VNull => true
  | _ => false

/-- Properties of the node a CREATE statement builds from one row: each
template entry is evaluated, and null-valued entries are dropped, since
Neo4j does not store a property set to null in CREATE. -/
def mkProps (t : Template) (row : Row) : List (String × PropValue) :=
  (t.map (fun e => (e.1, coerce e.2.1 (cellVal row e.2.2)))).filter
    (fun p => !isNullV p.2)

/-! ### The graph store -/

/-- A stored node: internal id, label, property map. -/
structure Node where
  nid : Nat
  label : Label
  props : List (String × PropValue)
  deriving DecidableEq, Repr

/-- A stored relationship (directed, typed, no properties are ever set by
this loader). -/
structure Edge where
  src : Nat
  typ : RelType
  tgt : Nat
  deriving DecidableEq, Repr

/-- The graph store state. -/
structure Graph where
  nodes : List Node
  edges : List Edge
  nextId : Nat
  deriving DecidableEq, Repr

def emptyGraph : Graph := ⟨[], [], 0⟩

/-- Reading a property: an absent key reads as null in Cypher. -/
def getProp (n : Node) (k : String) : PropValue :=
  (n.props.lookup k).getD .VNull

/-- Whether the node stores the key at all. -/
def hasProp (n : Node) (k : String) : Bool :=
  (n.props.lookup k).isSome

/-- Unconditional CREATE of one node (no existence check, no merge). -/
def createNode (L : Label) (ps : List (String × PropValue)) (g : Graph) :
    Graph :=
  { nodes := g.nodes ++ [⟨g.nextId, L, ps⟩]
    edges := g.edges
    nextId := g.nextId + 1 }

/-- Number of nodes carrying a label. -/
def countLabel (g : Graph) (L : Label) : Nat :=
  (g.nodes.filter (fun n => decide (n.label = L))).length

/-- Number of relationships of a type. -/
def countRel (g : Graph) (t : RelType) : Nat :=
  (g.edges.filter (fun e => decide (e.typ = t))).length

/-- Multiplicity of one exact edge. -/
def edgeCount (g : Graph) (e : Edge) : Nat :=
  g.edges.countP (fun x => decide (x = e))

/-! ### Relationship rules

Every relationship statement in the source has the shape

  MATCH (s:ScanLabel) [WHERE s.fk IS NOT NULL]
  MATCH (t:TgtLabel \x7bid: s.fk\x7d)
  MERGE (a)-[:TYPE]->(b)

where (a, b) is either (s, t) or (t, s).  A rule records the labels, the
foreign-key property, the matched identifier property (always `id` in the
source), the relationship type, the edge direction, and whether the WHERE
non-null filter is present. -/

structure RelRule where
  scanLabel : Label
  fkProp : String
  tgtLabel : Label
  tgtId : String
  relType : RelType
  scanToMatched : Bool
  requireNonNull : Bool
  deriving DecidableEq, Repr

/-- The scanned-node predicate: label plus (when the statement has one)
the `WHERE s.fk IS NOT NULL` filter. -/
def scanPred (r : RelRule) (n : Node) : Bool :=
  decide (n.label = r.scanLabel)
    && (!r.requireNonNull || isNotNull (getProp n r.fkProp))

/-- Cypher property-pattern equality: `\x7bid: v\x7d` matches nothing when
either side is null, otherwise compares values. -/
def matchVal (idv fkv : PropValue) : Bool :=
  isNotNull idv && isNotNull fkv && decide (idv = fkv)

/-- The matched-target predicate of `MATCH (t:TgtLabel \x7bid: s.fk\x7d)`. -/
def tgtPred (r : RelRule) (s t : Node) : Bool :=
  decide (t.label = r.tgtLabel) && matchVal (getProp t r.tgtId) (getProp s r.fkProp)

/-- The edge a matched row merges, oriented by the rule. -/
def edgeOf (r : RelRule) (s t : Node) : Edge :=
  if r.scanToMatched then ⟨s.nid, r.relType, t.nid⟩ else ⟨t.nid, r.relType, s.nid⟩

/-- The row stream the two MATCH clauses produce, as the edge each row
would merge. -/
def matchedEdges (r : RelRule) (ns : List Node) : List Edge :=
  (ns.filter (scanPred r)).flatMap
    (fun s => (ns.filter (tgtPred r s)).map (edgeOf r s))

/-- MERGE of one relationship between two bound nodes: ensure-exists,
keyed on (source node, target node, type). -/
def mergeEdge (e : Edge) (g : Graph) : Graph :=
  if e ∈ g.edges then g else { g with edges := g.edges ++ [e] }

def mergeEdges (es : List Edge) (g : Graph) : Graph :=
  es.foldl (fun h e => mergeEdge e h) g

/-- One match-and-connect pass: MERGE once per matched row. -/
def relPass (r : RelRule) (g : Graph) : Graph :=
  mergeEdges (matchedEdges r g.nodes) g

/-! ### Batched node loading (`_load_in_batches`, lines 865-873) -/

/-- The batch size set in `__init__` (line 38). -/
def batch_size : Nat := 1000

/-- Fuel-indexed chunking; each step takes `records[i:i+B]`, exactly as
the `range(0, len(records), batch_size)` loop does.  The fuel equals the
list length at the top call, which suffices for every positive `B`. -/
def chunksAux (B : Nat) : Nat → List α → List (List α)
  | _, [] => []
  | 0, _ :: _ => []
  | fuel + 1, a :: as => ((a :: as).take B) :: chunksAux B fuel ((a :: as).drop B)

/-- Partition of the record list into contiguous batches of at most `B`. -/
def chunks (B : Nat) (l : List α) : List (List α) :=
  chunksAux B l.length l

/-- `_load_in_batches` for a node-creation template: one parameterized
UNWIND/CREATE write per batch, each row creating one node. -/
def load_in_batches (L : Label) (t : Template) (rows : List Row) (g : Graph) :
    Graph :=
  (chunks batch_size rows).foldl
    (fun h batch => batch.foldl (fun h' row => createNode L (mkProps t row) h') h)
    g

/-! ### Node templates, one per CREATE map in the source -/

/-- `load_patients` CREATE map (lines 94-126). -/
def patientTemplate : Template :=
  [("id", .identity, "Id"), ("birthDate", .identity, "BIRTHDATE"),
   ("deathDate", .identity, "DEATHDATE"), ("ssn", .identity, "SSN"),
   ("drivers", .identity, "DRIVERS"), ("passport", .identity, "PASSPORT"),
   ("prefix", .identity, "PREFIX"), ("firstName", .identity, "FIRST"),
   ("middleName", .identity, "MIDDLE"), ("lastName", .identity, "LAST"),
   ("suffix", .identity, "SUFFIX"), ("maiden", .identity, "MAIDEN"),
   ("marital", .identity, "MARITAL"), ("race", .identity, "RACE"),
   ("ethnicity", .identity, "ETHNICITY"), ("gender", .identity, "GENDER"),
   ("birthPlace", .identity, "BIRTHPLACE"), ("address", .identity, "ADDRESS"),
   ("city", .identity, "CITY"), ("state", .identity, "STATE"),
   ("county", .identity, "COUNTY"), ("fips", .identity, "FIPS"),
   ("zip", .identity, "ZIP"), ("lat", .float, "LAT"), ("lon", .float, "LON"),
   ("healthcareExpenses", .float, "HEALTHCARE_EXPENSES"),
   ("healthcareCoverage", .float, "HEALTHCARE_COVERAGE"),
   ("income", .float, "INCOME")]

/-- `load_organizations` CREATE map (lines 136-151). -/
def organizationTemplate : Template :=
  [("id", .identity, "Id"), ("name", .identity, "NAME"),
   ("address", .identity, "ADDRESS"), ("city", .identity, "CITY"),
   ("state", .identity, "STATE"), ("zip", .identity, "ZIP"),
   ("lat", .float, "LAT"), ("lon", .float, "LON"),
   ("phone", .identity, "PHONE"), ("revenue", .float, "REVENUE"),
   ("utilization", .integer, "UTILIZATION")]

/-- `load_providers` CREATE map (lines 161-178). -/
def providerTemplate : Template :=
  [("id", .identity, "Id"), ("organizationId", .identity, "ORGANIZATION"),
   ("name", .identity, "NAME"), ("gender", .identity, "GENDER"),
   ("speciality", .identity, "SPECIALITY"), ("address", .identity, "ADDRESS"),
   ("city", .identity, "CITY"), ("state", .identity, "STATE"),
   ("zip", .identity, "ZIP"), ("lat", .float, "LAT"), ("lon", .float, "LON"),
   ("encounters", .integer, "ENCOUNTERS"),
   ("procedures", .integer, "PROCEDURES")]

/-- `load_payers` CREATE map (lines 199-225). -/
def payerTemplate : Template :=
  [("id", .identity, "Id"), ("name", .identity, "NAME"),
   ("ownership", .identity, "OWNERSHIP"), ("address", .identity, "ADDRESS"),
   ("city", .identity, "CITY"),
   ("stateHeadquartered", .identity, "STATE_HEADQUARTERED"),
   ("zip", .identity, "ZIP"), ("phone", .identity, "PHONE"),
   ("amountCovered", .float, "AMOUNT_COVERED"),
   ("amountUncovered", .float, "AMOUNT_UNCOVERED"),
   ("revenue", .float, "REVENUE"),
   ("coveredEncounters", .integer, "COVERED_ENCOUNTERS"),
   ("uncoveredEncounters", .integer, "UNCOVERED_ENCOUNTERS"),
   ("coveredMedications", .integer, "COVERED_MEDICATIONS"),
   ("uncoveredMedications", .integer, "UNCOVERED_MEDICATIONS"),
   ("coveredProcedures", .integer, "COVERED_PROCEDURES"),
   ("uncoveredProcedures", .integer, "UNCOVERED_PROCEDURES"),
   ("coveredImmunizations", .integer, "COVERED_IMMUNIZATIONS"),
   ("uncoveredImmunizations", .integer, "UNCOVERED_IMMUNIZATIONS"),
   ("uniqueCustomers", .integer, "UNIQUE_CUSTOMERS"),
   ("qolsAvg", .float, "QOLS_AVG"),
   ("memberMonths", .integer, "MEMBER_MONTHS")]

/-- `load_encounters` CREATE map (lines 235-254). -/
def encounterTemplate : Template :=
  [("id", .identity, "Id"), ("start", .identity, "START"),
   ("stop", .identity, "STOP"), ("patientId", .identity, "PATIENT"),
   ("organizationId", .identity, "ORGANIZATION"),
   ("providerId", .identity, "PROVIDER"), ("payerId", .identity, "PAYER"),
   ("encounterClass", .identity, "ENCOUNTERCLASS"),
   ("code", .identity, "CODE"), ("description", .identity, "DESCRIPTION"),
   ("baseCost", .float, "BASE_ENCOUNTER_COST"),
   ("totalClaimCost", .float, "TOTAL_CLAIM_COST"),
   ("payerCoverage", .float, "PAYER_COVERAGE"),
   ("reasonCode", .identity, "REASONCODE"),
   ("reasonDescription", .identity, "REASONDESCRIPTION")]

/-- `load_conditions` CREATE map (lines 278-289). -/
def conditionTemplate : Template :=
  [("start", .identity, "START"), ("stop", .identity, "STOP"),
   ("patientId", .identity, "PATIENT"), ("encounterId", .identity, "ENCOUNTER"),
   ("system", .identity, "SYSTEM"), ("code", .identity, "CODE"),
   ("description", .identity, "DESCRIPTION")]

/-- `load_medications` CREATE map (lines 314-331). -/
def medicationTemplate : Template :=
  [("start", .identity, "START"), ("stop", .identity, "STOP"),
   ("patientId", .identity, "PATIENT"), ("payerId", .identity, "PAYER"),
   ("encounterId", .identity, "ENCOUNTER"), ("code", .identity, "CODE"),
   ("description", .identity, "DESCRIPTION"),
   ("baseCost", .float, "BASE_COST"),
   ("payerCoverage", .float, "PAYER_COVERAGE"),
   ("dispenses", .integer, "DISPENSES"), ("totalCost", .float, "TOTALCOST"),
   ("reasonCode", .identity, "REASONCODE"),
   ("reasonDescription", .identity, "REASONDESCRIPTION")]

/-- `load_procedures` CREATE map (lines 362-376). -/
def procedureTemplate : Template :=
  [("start", .identity, "START"), ("stop", .identity, "STOP"),
   ("patientId", .identity, "PATIENT"), ("encounterId", .identity, "ENCOUNTER"),
   ("system", .identity, "SYSTEM"), ("code", .identity, "CODE"),
   ("description", .identity, "DESCRIPTION"),
   ("baseCost", .float, "BASE_COST"),
   ("reasonCode", .identity, "REASONCODE"),
   ("reasonDescription", .identity, "REASONDESCRIPTION")]

/-- `load_immunizations` CREATE map (lines 401-411). -/
def immunizationTemplate : Template :=
  [("date", .identity, "DATE"), ("patientId", .identity, "PATIENT"),
   ("encounterId", .identity, "ENCOUNTER"), ("code", .identity, "CODE"),
   ("description", .identity, "DESCRIPTION"), ("cost", .float, "COST")]

/-- `load_observations` CREATE map (lines 436-449). -/
def observationTemplate : Template :=
  [("date", .identity, "DATE"), ("patientId", .identity, "PATIENT"),
   ("encounterId", .identity, "ENCOUNTER"),
   ("category", .identity, "CATEGORY"), ("code", .identity, "CODE"),
   ("description", .identity, "DESCRIPTION"), ("value", .identity, "VALUE"),
   ("units", .identity, "UNITS"), ("type", .identity, "TYPE")]

/-- `load_allergies` CREATE map (lines 474-493). -/
def allergyTemplate : Template :=
  [("start", .identity, "START"), ("stop", .identity, "STOP"),
   ("patientId", .identity, "PATIENT"), ("encounterId", .identity, "ENCOUNTER"),
   ("code", .identity, "CODE"), ("system", .identity, "SYSTEM"),
   ("description", .identity, "DESCRIPTION"), ("type", .identity, "TYPE"),
   ("category", .identity, "CATEGORY"),
   ("reaction1", .identity, "REACTION1"),
   ("description1", .identity, "DESCRIPTION1"),
   ("severity1", .identity, "SEVERITY1"),
   ("reaction2", .identity, "REACTION2"),
   ("description2", .identity, "DESCRIPTION2"),
   ("severity2", .identity, "SEVERITY2")]

/-- `load_careplans` CREATE map (lines 518-531). -/
def careplanTemplate : Template :=
  [("id", .identity, "Id"), ("start", .identity, "START"),
   ("stop", .identity, "STOP"), ("patientId", .identity, "PATIENT"),
   ("encounterId", .identity, "ENCOUNTER"), ("code", .identity, "CODE"),
   ("description", .identity, "DESCRIPTION"),
   ("reasonCode", .identity, "REASONCODE"),
   ("reasonDescription", .identity, "REASONDESCRIPTION")]

/-- `load_devices` CREATE map (lines 556-567). -/
def deviceTemplate : Template :=
  [("start", .identity, "START"), ("stop", .identity, "STOP"),
   ("patientId", .identity, "PATIENT"), ("encounterId", .identity, "ENCOUNTER"),
   ("code", .identity, "CODE"), ("description", .identity, "DESCRIPTION"),
   ("udi", .identity, "UDI")]

/-- `load_imaging_studies` CREATE map (lines 592-609). -/
def imagingStudyTemplate : Template :=
  [("id", .identity, "Id"), ("date", .identity, "DATE"),
   ("patientId", .identity, "PATIENT"), ("encounterId", .identity, "ENCOUNTER"),
   ("seriesUid", .identity, "SERIES_UID"),
   ("bodySiteCode", .identity, "BODYSITE_CODE"),
   ("bodySiteDescription", .identity, "BODYSITE_DESCRIPTION"),
   ("modalityCode", .identity, "MODALITY_CODE"),
   ("modalityDescription", .identity, "MODALITY_DESCRIPTION"),
   ("instanceUid", .identity, "INSTANCE_UID"),
   ("sopCode", .identity, "SOP_CODE"),
   ("sopDescription", .identity, "SOP_DESCRIPTION"),
   ("procedureCode", .identity, "PROCEDURE_CODE")]

/-- `load_supplies` CREATE map (lines 634-643). -/
def supplyTemplate : Template :=
  [("date", .identity, "DATE"), ("patientId", .identity, "PATIENT"),
   ("encounterId", .identity, "ENCOUNTER"), ("code", .identity, "CODE"),
   ("description", .identity, "DESCRIPTION"),
   ("quantity", .integer, "QUANTITY")]

/-- `load_payer_transitions` CREATE map (lines 669-681). -/
def payerTransitionTemplate : Template :=
  [("patientId", .identity, "PATIENT"), ("memberId", .identity, "MEMBERID"),
   ("startYear", .identity, "START_YEAR"), ("endYear", .identity, "END_YEAR"),
   ("payerId", .identity, "PAYER"),
   ("secondaryPayerId", .identity, "SECONDARY_PAYER"),
   ("ownership", .identity, "OWNERSHIP"),
   ("ownerName", .identity, "OWNERNAME")]

/-- `load_claims` CREATE map (lines 712-747). -/
def claimTemplate : Template :=
  [("id", .identity, "Id"), ("patientId", .identity, "PATIENTID"),
   ("providerId", .identity, "PROVIDERID"),
   ("primaryInsuranceId", .identity, "PRIMARYPATIENTINSURANCEID"),
   ("secondaryInsuranceId", .identity, "SECONDARYPATIENTINSURANCEID"),
   ("departmentId", .integer, "DEPARTMENTID"),
   ("patientDepartmentId", .integer, "PATIENTDEPARTMENTID"),
   ("diagnosis1", .identity, "DIAGNOSIS1"),
   ("diagnosis2", .identity, "DIAGNOSIS2"),
   ("diagnosis3", .identity, "DIAGNOSIS3"),
   ("diagnosis4", .identity, "DIAGNOSIS4"),
   ("diagnosis5", .identity, "DIAGNOSIS5"),
   ("diagnosis6", .identity, "DIAGNOSIS6"),
   ("diagnosis7", .identity, "DIAGNOSIS7"),
   ("diagnosis8", .identity, "DIAGNOSIS8"),
   ("referringProviderId", .identity, "REFERRINGPROVIDERID"),
   ("appointmentId", .identity, "APPOINTMENTID"),
   ("currentIllnessDate", .identity, "CURRENTILLNESSDATE"),
   ("serviceDate", .identity, "SERVICEDATE"),
   ("supervisingProviderId", .identity, "SUPERVISINGPROVIDERID"),
   ("status1", .identity, "STATUS1"), ("status2", .identity, "STATUS2"),
   ("statusP", .identity, "STATUSP"),
   ("outstanding1", .float, "OUTSTANDING1"),
   ("outstanding2", .float, "OUTSTANDING2"),
   ("outstandingP", .float, "OUTSTANDINGP"),
   ("lastBilledDate1", .identity, "LASTBILLEDDATE1"),
   ("lastBilledDate2", .identity, "LASTBILLEDDATE2"),
   ("lastBilledDateP", .identity, "LASTBILLEDDATEP"),
   ("healthcareClaimTypeId1", .integer, "HEALTHCARECLAIMTYPEID1"),
   ("healthcareClaimTypeId2", .integer, "HEALTHCARECLAIMTYPEID2")]

/-- `load_claims_transactions` CREATE map (lines 790-827). -/
def claimTransactionTemplate : Template :=
  [("id", .identity, "Id"), ("claimId", .identity, "CLAIMID"),
   ("chargeId", .integer, "CHARGEID"), ("patientId", .identity, "PATIENTID"),
   ("type", .identity, "TYPE"), ("amount", .float, "AMOUNT"),
   ("method", .identity, "METHOD"), ("fromDate", .identity, "FROMDATE"),
   ("toDate", .identity, "TODATE"),
   ("placeOfService", .identity, "PLACEOFSERVICE"),
   ("procedureCode", .identity, "PROCEDURECODE"),
   ("modifier1", .identity, "MODIFIER1"),
   ("modifier2", .identity, "MODIFIER2"),
   ("diagnosisRef1", .integer, "DIAGNOSISREF1"),
   ("diagnosisRef2", .integer, "DIAGNOSISREF2"),
   ("diagnosisRef3", .integer, "DIAGNOSISREF3"),
   ("diagnosisRef4", .integer, "DIAGNOSISREF4"),
   ("units", .integer, "UNITS"),
   ("departmentId", .integer, "DEPARTMENTID"),
   ("notes", .identity, "NOTES"), ("unitAmount", .float, "UNITAMOUNT"),
   ("transferOutId", .integer, "TRANSFEROUTID"),
   ("transferType", .identity, "TRANSFERTYPE"),
   ("payments", .float, "PAYMENTS"),
   ("adjustments", .float, "ADJUSTMENTS"),
   ("transfers", .float, "TRANSFERS"),
   ("outstanding", .float, "OUTSTANDING"),
   ("appointmentId", .identity, "APPOINTMENTID"),
   ("lineNote", .identity, "LINENOTE"),
   ("patientInsuranceId", .identity, "PATIENTINSURANCEID"),
   ("feeScheduleId", .integer, "FEEscheduleid"),
   ("providerId", .identity, "PROVIDERID"),
   ("supervisingProviderId", .identity, "SUPERVISINGPROVIDERID")]

/-! ### Relationship rules, one per MERGE statement in the source -/

/-- line 183-187: `(pr:Provider)-[:EMPLOYED_BY]->(o:Organization)`. -/
def employedBy : RelRule :=
  ⟨.Provider, "organizationId", .Organization, "id", .EMPLOYED_BY, true, false⟩

/-- line 261: `(p:Patient)-[:HAD_ENCOUNTER]->(e:Encounter)`. -/
def hadEncounter : RelRule :=
  ⟨.Encounter, "patientId", .Patient, "id", .HAD_ENCOUNTER, false, false⟩

/-- line 262: `(e:Encounter)-[:OCCURRED_AT]->(o:Organization)`. -/
def occurredAt : RelRule :=
  ⟨.Encounter, "organizationId", .Organization, "id", .OCCURRED_AT, true, false⟩

/-- line 263: `(e:Encounter)-[:ATTENDED_BY]->(pr:Provider)`. -/
def attendedBy : RelRule :=
  ⟨.Encounter, "providerId", .Provider, "id", .ATTENDED_BY, true, false⟩

/-- line 264: `(e:Encounter)-[:COVERED_BY]->(py:Payer)`. -/
def coveredBy : RelRule :=
  ⟨.Encounter, "payerId", .Payer, "id", .COVERED_BY, true, false⟩

/-- lines 296-300: `(p:Patient)-[:HAS_CONDITION]->(c:Condition)`. -/
def hasCondition : RelRule :=
  ⟨.Condition, "patientId", .Patient, "id", .HAS_CONDITION, false, false⟩

/-- lines 301-305: `(e:Encounter)-[:DIAGNOSED]->(c:Condition)`. -/
def diagnosed : RelRule :=
  ⟨.Condition, "encounterId", .Encounter, "id", .DIAGNOSED, false, false⟩

/-- lines 338-342: `(p:Patient)-[:PRESCRIBED]->(m:Medication)`. -/
def prescribed : RelRule :=
  ⟨.Medication, "patientId", .Patient, "id", .PRESCRIBED, false, false⟩

/-- lines 343-347: `(e:Encounter)-[:PRESCRIBED_MEDICATION]->(m)`. -/
def prescribedMedication : RelRule :=
  ⟨.Medication, "encounterId", .Encounter, "id", .PRESCRIBED_MEDICATION, false, false⟩

/-- lines 348-353: `(m:Medication)-[:PAID_BY]->(py:Payer)` with
`WHERE m.payerId IS NOT NULL`. -/
def paidBy : RelRule :=
  ⟨.Medication, "payerId", .Payer, "id", .PAID_BY, true, true⟩

/-- lines 383-387: `(p:Patient)-[:UNDERWENT_PROCEDURE]->(pr)`. -/
def underwentProcedure : RelRule :=
  ⟨.Procedure, "patientId", .Patient, "id", .UNDERWENT_PROCEDURE, false, false⟩

/-- lines 388-392: `(e:Encounter)-[:PERFORMED_PROCEDURE]->(pr)`. -/
def performedProcedure : RelRule :=
  ⟨.Procedure, "encounterId", .Encounter, "id", .PERFORMED_PROCEDURE, false, false⟩

/-- lines 418-422: `(p:Patient)-[:RECEIVED_IMMUNIZATION]->(i)`. -/
def receivedImmunization : RelRule :=
  ⟨.Immunization, "patientId", .Patient, "id", .RECEIVED_IMMUNIZATION, false, false⟩

/-- lines 423-427: `(e:Encounter)-[:ADMINISTERED_IMMUNIZATION]->(i)`. -/
def administeredImmunization : RelRule :=
  ⟨.Immunization, "encounterId", .Encounter, "id", .ADMINISTERED_IMMUNIZATION, false, false⟩

/-- lines 456-460: `(p:Patient)-[:HAS_OBSERVATION]->(o)`. -/
def hasObservation : RelRule :=
  ⟨.Observation, "patientId", .Patient, "id", .HAS_OBSERVATION, false, false⟩

/-- lines 461-465: `(e:Encounter)-[:RECORDED_OBSERVATION]->(o)`. -/
def recordedObservation : RelRule :=
  ⟨.Observation, "encounterId", .Encounter, "id", .RECORDED_OBSERVATION, false, false⟩

/-- lines 500-504: `(p:Patient)-[:HAS_ALLERGY]->(a)`. -/
def hasAllergy : RelRule :=
  ⟨.Allergy, "patientId", .Patient, "id", .HAS_ALLERGY, false, false⟩

/-- lines 505-509: `(e:Encounter)-[:DOCUMENTED_ALLERGY]->(a)`. -/
def documentedAllergy : RelRule :=
  ⟨.Allergy, "encounterId", .Encounter, "id", .DOCUMENTED_ALLERGY, false, false⟩

/-- lines 538-542: `(p:Patient)-[:HAS_CAREPLAN]->(cp)`. -/
def hasCareplan : RelRule :=
  ⟨.CarePlan, "patientId", .Patient, "id", .HAS_CAREPLAN, false, false⟩

/-- lines 543-547: `(e:Encounter)-[:INITIATED_CAREPLAN]->(cp)`. -/
def initiatedCareplan : RelRule :=
  ⟨.CarePlan, "encounterId", .Encounter, "id", .INITIATED_CAREPLAN, false, false⟩

/-- lines 574-578: `(p:Patient)-[:USES_DEVICE]->(d)`. -/
def usesDevice : RelRule :=
  ⟨.Device, "patientId", .Patient, "id", .USES_DEVICE, false, false⟩

/-- lines 579-583: `(e:Encounter)-[:ASSOCIATED_DEVICE]->(d)`. -/
def associatedDevice : RelRule :=
  ⟨.Device, "encounterId", .Encounter, "id", .ASSOCIATED_DEVICE, false, false⟩

/-- lines 616-620: `(p:Patient)-[:HAD_IMAGING]->(img)`. -/
def hadImaging : RelRule :=
  ⟨.ImagingStudy, "patientId", .Patient, "id", .HAD_IMAGING, false, false⟩

/-- lines 621-625: `(e:Encounter)-[:CONDUCTED_IMAGING]->(img)`. -/
def conductedImaging : RelRule :=
  ⟨.ImagingStudy, "encounterId", .Encounter, "id", .CONDUCTED_IMAGING, false, false⟩

/-- lines 651-655: `(p:Patient)-[:USED_SUPPLY]->(s)`. -/
def usedSupply : RelRule :=
  ⟨.Supply, "patientId", .Patient, "id", .USED_SUPPLY, false, false⟩

/-- lines 656-660: `(e:Encounter)-[:CONSUMED_SUPPLY]->(s)`. -/
def consumedSupply : RelRule :=
  ⟨.Supply, "encounterId", .Encounter, "id", .CONSUMED_SUPPLY, false, false⟩

/-- lines 688-692: `(p:Patient)-[:HAD_COVERAGE]->(pt)`. -/
def hadCoverage : RelRule :=
  ⟨.PayerTransition, "patientId", .Patient, "id", .HAD_COVERAGE, false, false⟩

/-- lines 693-697: `(pt:PayerTransition)-[:PRIMARY_PAYER]->(py)`. -/
def primaryPayer : RelRule :=
  ⟨.PayerTransition, "payerId", .Payer, "id", .PRIMARY_PAYER, true, false⟩

/-- lines 698-703: `(pt)-[:SECONDARY_PAYER]->(py)` with
`WHERE pt.secondaryPayerId IS NOT NULL`. -/
def secondaryPayer : RelRule :=
  ⟨.PayerTransition, "secondaryPayerId", .Payer, "id", .SECONDARY_PAYER, true, true⟩

/-- lines 754-758: `(p:Patient)-[:FILED_CLAIM]->(cl)`. -/
def filedClaim : RelRule :=
  ⟨.Claim, "patientId", .Patient, "id", .FILED_CLAIM, false, false⟩

/-- lines 759-763: `(cl:Claim)-[:SUBMITTED_BY]->(pr:Provider)`. -/
def submittedBy : RelRule :=
  ⟨.Claim, "providerId", .Provider, "id", .SUBMITTED_BY, true, false⟩

/-- lines 764-769: `(cl)-[:PRIMARY_INSURANCE]->(py)` with
`WHERE cl.primaryInsuranceId IS NOT NULL`. -/
def primaryInsurance : RelRule :=
  ⟨.Claim, "primaryInsuranceId", .Payer, "id", .PRIMARY_INSURANCE, true, true⟩

/-- lines 770-775: `(cl)-[:SECONDARY_INSURANCE]->(py)` with
`WHERE cl.secondaryInsuranceId IS NOT NULL`. -/
def secondaryInsurance : RelRule :=
  ⟨.Claim, "secondaryInsuranceId", .Payer, "id", .SECONDARY_INSURANCE, true, true⟩

/-- lines 776-781: `(cl)-[:FOR_ENCOUNTER]->(e)` with
`WHERE cl.appointmentId IS NOT NULL`. -/
def forEncounter : RelRule :=
  ⟨.Claim, "appointmentId", .Encounter, "id", .FOR_ENCOUNTER, true, true⟩

/-- lines 834-838: `(cl:Claim)-[:HAS_TRANSACTION]->(ct)`. -/
def hasTransaction : RelRule :=
  ⟨.ClaimTransaction, "claimId", .Claim, "id", .HAS_TRANSACTION, false, false⟩

/-- lines 839-843: `(ct)-[:FOR_PATIENT]->(p:Patient)`. -/
def forPatient : RelRule :=
  ⟨.ClaimTransaction, "patientId", .Patient, "id", .FOR_PATIENT, true, false⟩

/-- lines 844-849: `(ct)-[:SERVICE_AT]->(o:Organization)` with
`WHERE ct.placeOfService IS NOT NULL`. -/
def serviceAt : RelRule :=
  ⟨.ClaimTransaction, "placeOfService", .Organization, "id", .SERVICE_AT, true, true⟩

/-- lines 850-855: `(ct)-[:PERFORMED_BY]->(pr:Provider)` with
`WHERE ct.providerId IS NOT NULL`. -/
def performedBy : RelRule :=
  ⟨.ClaimTransaction, "providerId", .Provider, "id", .PERFORMED_BY, true, true⟩

/-- lines 856-861: `(ct)-[:DURING_ENCOUNTER]->(e:Encounter)` with
`WHERE ct.appointmentId IS NOT NULL`. -/
def duringEncounter : RelRule :=
  ⟨.ClaimTransaction, "appointmentId", .Encounter, "id", .DURING_ENCOUNTER, true, true⟩

/-! ### The per-file load functions -/

/-- `load_patients` (lines 89-129): nodes only. -/
def load_patients (rows : List Row) (g : Graph) : Graph :=
  load_in_batches .Patient patientTemplate rows g

/-- `load_organizations` (lines 131-154): nodes only. -/
def load_organizations (rows : List Row) (g : Graph) : Graph :=
  load_in_batches .Organization organizationTemplate rows g

/-- `load_providers` (lines 156-192): nodes, then the EMPLOYED_BY pass. -/
def load_providers (rows : List Row) (g : Graph) : Graph :=
  relPass employedBy (load_in_batches .Provider providerTemplate rows g)

/-- `load_payers` (lines 194-228): nodes only. -/
def load_payers (rows : List Row) (g : Graph) : Graph :=
  load_in_batches .Payer payerTemplate rows g

/-- `load_encounters` (lines 230-271): nodes, then four passes in the
order of the `relationships` list. -/
def load_encounters (rows : List Row) (g : Graph) : Graph :=
  relPass coveredBy (relPass attendedBy (relPass occurredAt (relPass hadEncounter
    (load_in_batches .Encounter encounterTemplate rows g))))

/-- `load_conditions` (lines 273-307). -/
def load_conditions (rows : List Row) (g : Graph) : Graph :=
  relPass diagnosed (relPass hasCondition
    (load_in_batches .Condition conditionTemplate rows g))

/-- `load_medications` (lines 309-355). -/
def load_medications (rows : List Row) (g : Graph) : Graph :=
  relPass paidBy (relPass prescribedMedication (relPass prescribed
    (load_in_batches .Medication medicationTemplate rows g)))

/-- `load_procedures` (lines 357-394). -/
def load_procedures (rows : List Row) (g : Graph) : Graph :=
  relPass performedProcedure (relPass underwentProcedure
    (load_in_batches .Procedure procedureTemplate rows g))

/-- `load_immunizations` (lines 396-429). -/
def load_immunizations (rows : List Row) (g : Graph) : Graph :=
  relPass administeredImmunization (relPass receivedImmunization
    (load_in_batches .Immunization immunizationTemplate rows g))

/-- `load_observations` (lines 431-467). -/
def load_observations (rows : List Row) (g : Graph) : Graph :=
  relPass recordedObservation (relPass hasObservation
    (load_in_batches .Observation observationTemplate rows g))

/-- `load_allergies` (lines 469-511). -/
def load_allergies (rows : List Row) (g : Graph) : Graph :=
  relPass documentedAllergy (relPass hasAllergy
    (load_in_batches .Allergy allergyTemplate rows g))

/-- `load_careplans` (lines 513-549). -/
def load_careplans (rows : List Row) (g : Graph) : Graph :=
  relPass initiatedCareplan (relPass hasCareplan
    (load_in_batches .CarePlan careplanTemplate rows g))

/-- `load_devices` (lines 551-585). -/
def load_devices (rows : List Row) (g : Graph) : Graph :=
  relPass associatedDevice (relPass usesDevice
    (load_in_batches .Device deviceTemplate rows g))

/-- `load_imaging_studies` (lines 587-627). -/
def load_imaging_studies (rows : List Row) (g : Graph) : Graph :=
  relPass conductedImaging (relPass hadImaging
    (load_in_batches .ImagingStudy imagingStudyTemplate rows g))

/-- `load_supplies` (lines 629-662). -/
def load_supplies (rows : List Row) (g : Graph) : Graph :=
  relPass consumedSupply (relPass usedSupply
    (load_in_batches .Supply supplyTemplate rows g))

/-- `load_payer_transitions` (lines 664-705). -/
def load_payer_transitions (rows : List Row) (g : Graph) : Graph :=
  relPass secondaryPayer (relPass primaryPayer (relPass hadCoverage
    (load_in_batches .PayerTransition payerTransitionTemplate rows g)))

/-- `load_claims` (lines 707-783). -/
def load_claims (rows : List Row) (g : Graph) : Graph :=
  relPass forEncounter (relPass secondaryInsurance (relPass primaryInsurance
    (relPass submittedBy (relPass filedClaim
      (load_in_batches .Claim claimTemplate rows g)))))

/-- `load_claims_transactions` (lines 785-863). -/
def load_claims_transactions (rows : List Row) (g : Graph) : Graph :=
  relPass duringEncounter (relPass performedBy (relPass serviceAt
    (relPass forPatient (relPass hasTransaction
      (load_in_batches .ClaimTransaction claimTransactionTemplate rows g)))))

/-! ### Schema setup (`create_constraints`, `create_indexes`)

Each statement is run inside `try ... except Exception: logger.warning(...)`
(lines 64-69 and 82-87), so EVERY failure of a schema statement — not only
an already-exists response — is caught, logged as a warning, and the loop
continues with the next statement.  The session behaviour is abstracted as
`exec : String → Except String Unit`. -/

/-- The eight constraint statements of `create_constraints` (lines 53-62). -/
def constraints : List String :=
  ["CREATE CONSTRAINT patient_id IF NOT EXISTS FOR (p:Patient) REQUIRE p.id IS UNIQUE",
   "CREATE CONSTRAINT encounter_id IF NOT EXISTS FOR (e:Encounter) REQUIRE e.id IS UNIQUE",
   "CREATE CONSTRAINT organization_id IF NOT EXISTS FOR (o:Organization) REQUIRE o.id IS UNIQUE",
   "CREATE CONSTRAINT provider_id IF NOT EXISTS FOR (pr:Provider) REQUIRE pr.id IS UNIQUE",
   "CREATE CONSTRAINT payer_id IF NOT EXISTS FOR (py:Payer) REQUIRE py.id IS UNIQUE",
   "CREATE CONSTRAINT careplan_id IF NOT EXISTS FOR (cp:CarePlan) REQUIRE cp.id IS UNIQUE",
   "CREATE CONSTRAINT claim_id IF NOT EXISTS FOR (cl:Claim) REQUIRE cl.id IS UNIQUE",
   "CREATE CONSTRAINT transaction_id IF NOT EXISTS FOR (ct:ClaimTransaction) REQUIRE ct.id IS UNIQUE"]

/-- The five index statements of `create_indexes` (lines 74-80). -/
def indexes : List String :=
  ["CREATE INDEX patient_ssn IF NOT EXISTS FOR (p:Patient) ON (p.ssn)",
   "CREATE INDEX encounter_date IF NOT EXISTS FOR (e:Encounter) ON (e.start)",
   "CREATE INDEX condition_code IF NOT EXISTS FOR (c:Condition) ON (c.code)",
   "CREATE INDEX medication_code IF NOT EXISTS FOR (m:Medication) ON (m.code)",
   "CREATE INDEX procedure_code IF NOT EXISTS FOR (pr:Procedure) ON (pr.code)"]

/-- Run one schema statement under the catch-all handler: the outcome is
recorded (true = created, false = warning logged) and never propagated. -/
def runSchemaStmt (exec : String → Except String Unit) (s : String) :
    String × Bool :=
  (s, match exec s with
      | .ok _ => true
      | .error _ => false)

/-- `create_constraints` (lines 50-69): every statement is attempted. -/
def create_constraints (exec : String → Except String Unit) :
    List (String × Bool) :=
  constraints.map (runSchemaStmt exec)

/-- `create_indexes` (lines 71-87): every statement is attempted. -/
def create_indexes (exec : String → Except String Unit) :
    List (String × Bool) :=
  indexes.map (runSchemaStmt exec)

/-! ### The orchestrator (`load_all_data`, lines 875-924) -/

/-- The outcome of a full run: the two schema logs and the final graph. -/
structure RunResult where
  constraintLog : List (String × Bool)
  indexLog : List (String × Bool)
  graph : Graph
  deriving Repr

/-- A CSV directory: the row list of each entity file. -/
abbrev Input := Label → List Row

/-- `load_all_data` (lines 875-924): schema setup, then the eighteen load
functions in the fixed source order. -/
def load_all_data (exec : String → Except String Unit) (input : Input)
    (g : Graph) : RunResult :=
  let cLog := create_constraints exec
  let iLog := create_indexes exec
  let g1 := load_patients (input .Patient) g
  let g2 := load_organizations (input .Organization) g1
  let g3 := load_providers (input .Provider) g2
  let g4 := load_payers (input .Payer) g3
  let g5 := load_encounters (input .Encounter) g4
  let g6 := load_conditions (input .Condition) g5
  let g7 := load_medications (input .Medication) g6
  let g8 := load_procedures (input .Procedure) g7
  let g9 := load_immunizations (input .Immunization) g8
  let g10 := load_observations (input .Observation) g9
  let g11 := load_allergies (input .Allergy) g10
  let g12 := load_careplans (input .CarePlan) g11
  let g13 := load_devices (input .Device) g12
  let g14 := load_imaging_studies (input .ImagingStudy) g13
  let g15 := load_supplies (input .Supply) g14
  let g16 := load_payer_transitions (input .PayerTransition) g15
  let g17 := load_claims (input .Claim) g16
  let g18 := load_claims_transactions (input .ClaimTransaction) g17
  ⟨cLog, iLog, g18⟩

/-! ### The pipeline as an explicit event sequence

`fullTrace` lists, in source order, every stage of `load_all_data`: the
two schema statement batches, and each node-creation and
relationship-creation pass.  A theorem below checks that executing the
trace is exactly `load_all_data`. -/

/-- One pipeline event. -/
inductive Step where
  | schema (stmts : List String)
  | nodes (label : Label)
  | rel (r : RelRule)
  deriving DecidableEq, Repr

/-- The template each node-creation pass uses. -/
def templateOf : Label → Template
  | .Patient => patientTemplate
  | .Organization => organizationTemplate
  | .Provider => providerTemplate
  | .Payer => payerTemplate
  | .Encounter => encounterTemplate
  | .Condition => conditionTemplate
  | .Medication => medicationTemplate
  | .Procedure => procedureTemplate
  | .Immunization => immunizationTemplate
  | .Observation => observationTemplate
  | .Allergy => allergyTemplate
  | .CarePlan => careplanTemplate
  | .Device => deviceTemplate
  | .ImagingStudy => imagingStudyTemplate
  | .Supply => supplyTemplate
  | .PayerTransition => payerTransitionTemplate
  | .Claim => claimTemplate
  | .ClaimTransaction => claimTransactionTemplate

/-- Effect of one event on the graph (schema statements do not touch
graph data). -/
def execStep (input : Input) (g : Graph) : Step → Graph
  | .schema _ => g
  | .nodes L => load_in_batches L (templateOf L) (input L) g
  | .rel r => relPass r g

/-- The full pipeline event sequence, in source order. -/
def fullTrace : List Step :=
  [.schema constraints, .schema indexes,
   .nodes .Patient,
   .nodes .Organization,
   .nodes .Provider, .rel employedBy,
   .nodes .Payer,
   .nodes .Encounter, .rel hadEncounter, .rel occurredAt, .rel attendedBy,
   .rel coveredBy,
   .nodes .Condition, .rel hasCondition, .rel diagnosed,
   .nodes .Medication, .rel prescribed, .rel prescribedMedication, .rel paidBy,
   .nodes .Procedure, .rel underwentProcedure, .rel performedProcedure,
   .nodes .Immunization, .rel receivedImmunization,
   .rel administeredImmunization,
   .nodes .Observation, .rel hasObservation, .rel recordedObservation,
   .nodes .Allergy, .rel hasAllergy, .rel documentedAllergy,
   .nodes .CarePlan, .rel hasCareplan, .rel initiatedCareplan,
   .nodes .Device, .rel usesDevice, .rel associatedDevice,
   .nodes .ImagingStudy, .rel hadImaging, .rel conductedImaging,
   .nodes .Supply, .rel usedSupply, .rel consumedSupply,
   .nodes .PayerTransition, .rel hadCoverage, .rel primaryPayer,
   .rel secondaryPayer,
   .nodes .Claim, .rel filedClaim, .rel submittedBy, .rel primaryInsurance,
   .rel secondaryInsurance, .rel forEncounter,
   .nodes .ClaimTransaction, .rel hasTransaction, .rel forPatient,
   .rel serviceAt, .rel performedBy, .rel duringEncounter]

/-- Orchestrator stage of an entity type, following §4.6 of the spec: 1 =
independent entities, 2 = encounters, 3 = encounter-scoped clinical
entities, 4 = insurance and claims entities. -/
def entityStage : Label → Nat
  | .Patient | .Organization | .Provider | .Payer => 1
  | .Encounter => 2
  | .PayerTransition | .Claim | .ClaimTransaction => 4
  | _ => 3

/-- Stage of an event; schema setup is stage 0, and a relationship pass
belongs to the stage of the entity whose load function issues it (its
scanned label). -/
def stageOf : Step → Nat
  | .schema _ => 0
  | .nodes L => entityStage L
  | .rel r => entityStage r.scanLabel

/-- Checks that every relationship pass in the event list occurs after
node-creation passes for both of its endpoint labels, given the labels
already loaded. -/
def relAfterNodes (seen : List Label) : List Step → Bool
  | [] => true
  | .schema _ :: rest => relAfterNodes seen rest
  | .nodes L :: rest => relAfterNodes (L :: seen) rest
  | .rel r :: rest =>
      seen.contains r.scanLabel && seen.contains r.tgtLabel
        && relAfterNodes seen rest

/-- Checks that the stage sequence never decreases. -/
def monotoneStages : List Nat → Bool
  | a :: b :: rest => decide (a ≤ b) && monotoneStages (b :: rest)
  | _ => true

/-! ### Concrete fixtures used by the closed theorems below -/

/-- A session in which every schema statement succeeds. -/
def okExec : String → Except String Unit := fun _ => .ok ()

/-- A session in which every schema statement fails (e.g. each statement
is malformed). -/
def badExec : String → Except String Unit := fun _ => .error "malformed statement"

/-- A CSV directory with one patient and one encounter of that patient. -/
def pairInput : Input := fun L =>
  match L with
  | .Patient => [[("Id", some "P1")]]
  | .Encounter => [[("Id", some "E1"), ("PATIENT", some "P1")]]
  | _ => []

/-- The graph after one full pipeline run over `pairInput`. -/
def pairRun1 : Graph := (load_all_data okExec pairInput emptyGraph).graph

/-- The graph after re-running the full pipeline over the same input. -/
def pairRun2 : Graph := (load_all_data okExec pairInput pairRun1).graph

/-- A CSV directory holding only the one-patient file. -/
def patientOnlyInput : Input := fun L =>
  match L with
  | .Patient => [[("Id", some "P1")]]
  | _ => []

/-- Two payer rows for the claims scenario of §8 of the spec. -/
def scenarioPayers : List Row := [[("Id", some "PY1")], [("Id", some "PY2")]]

/-- Ten claim rows, all with primary insurer PY1; three of them have an
empty secondary-insurer field. -/
def scenarioClaims : List Row :=
  [[("Id", some "C1"), ("PRIMARYPATIENTINSURANCEID", some "PY1"),
    ("SECONDARYPATIENTINSURANCEID", some "PY2")],
   [("Id", some "C2"), ("PRIMARYPATIENTINSURANCEID", some "PY1"),
    ("SECONDARYPATIENTINSURANCEID", some "PY2")],
   [("Id", some "C3"), ("PRIMARYPATIENTINSURANCEID", some "PY1"),
    ("SECONDARYPATIENTINSURANCEID", some "PY2")],
   [("Id", some "C4"), ("PRIMARYPATIENTINSURANCEID", some "PY1"),
    ("SECONDARYPATIENTINSURANCEID", some "PY2")],
   [("Id", some "C5"), ("PRIMARYPATIENTINSURANCEID", some "PY1"),
    ("SECONDARYPATIENTINSURANCEID", some "PY2")],
   [("Id", some "C6"), ("PRIMARYPATIENTINSURANCEID", some "PY1"),
    ("SECONDARYPATIENTINSURANCEID", some "PY2")],
   [("Id", some "C7"), ("PRIMARYPATIENTINSURANCEID", some "PY1"),
    ("SECONDARYPATIENTINSURANCEID", some "PY2")],
   [("Id", some "C8"), ("PRIMARYPATIENTINSURANCEID", some "PY1"),
    ("SECONDARYPATIENTINSURANCEID", some "")],
   [("Id", some "C9"), ("PRIMARYPATIENTINSURANCEID", some "PY1"),
    ("SECONDARYPATIENTINSURANCEID", some "")],
   [("Id", some "C10"), ("PRIMARYPATIENTINSURANCEID", some "PY1"),
    ("SECONDARYPATIENTINSURANCEID", some "")]]

/-- The graph after loading the two payers and then the ten claims. -/
def scenarioGraph : Graph :=
  load_claims scenarioClaims (load_payers scenarioPayers emptyGraph)

/-- A patient row with a non-numeric value in the float column LAT. -/
def badLatRow : Row := [("Id", some "P1"), ("LAT", some "abc")]

/-- A claim row whose integer column DEPARTMENTID has an empty cell. -/
def emptyDeptRow : Row := [("Id", some "C1"), ("DEPARTMENTID", some "")]

/-- A claim node with an empty secondary-insurer foreign key. -/
def wClaimNode : Node := ⟨0, .Claim, [("secondaryInsuranceId", .VStr "")]⟩

/-- A two-node graph: the claim above and one payer whose id does not
match the empty foreign key. -/
def wGraph : Graph :=
  ⟨[wClaimNode, ⟨1, .Payer, [("id", .VStr "PY1")]⟩], [], 2⟩

/-- Three (empty) record rows for the batch-partitioning witness. -/
def wRows : List Row := [[], [], []]

/-! ### Helper lemmas: batch partitioning -/

theorem chunksAux_join {B : Nat} (hB : 0 < B) :
    ∀ (fuel : Nat) (l : List α), l.length ≤ fuel →
      (chunksAux B fuel l).flatten = l := by
  intro fuel
  induction fuel with
  | zero =>
      intro l hl
      match l with
      | [] => rfl
  | succ n ih =>
      intro l hl
      match l with
      | [] => rfl
      | a :: as =>
          have hdrop : ((a :: as).drop B).length ≤ n := by
            simp only [List.length_drop, List.length_cons]
            simp only [List.length_cons] at hl
            omega
          simp only [chunksAux, List.flatten_cons, ih _ hdrop, List.take_append_drop]

theorem chunks_join {B : Nat} (hB : 0 < B) (l : List α) :
    (chunks B l).flatten = l :=
  chunksAux_join hB l.length l le_rfl

theorem chunksAux_mem_length {B : Nat} :
    ∀ (fuel : Nat) (l : List α) (c : List α),
      c ∈ chunksAux B fuel l → c.length ≤ B := by
  intro fuel
  induction fuel with
  | zero =>
      intro l c hc
      match l with
      | [] => simp [chunksAux] at hc
      | _ :: _ => simp [chunksAux] at hc
  | succ n ih =>
      intro l c hc
      match l with
      | [] => simp [chunksAux] at hc
      | a :: as =>
          simp only [chunksAux, List.mem_cons] at hc
          rcases hc with h | h
          · subst h
            simp [List.length_take]
          · exact ih _ _ h

theorem chunksAux_length {B : Nat} (hB : 0 < B) :
    ∀ (fuel : Nat) (l : List α), l.length ≤ fuel →
      (chunksAux B fuel l).length = (l.length + B - 1) / B := by
  intro fuel
  induction fuel with
  | zero =>
      intro l hl
      match l with
      | [] =>
          simp only [chunksAux, List.length_nil]
          rw [Nat.div_eq_of_lt (by omega)]
  | succ n ih =>
      intro l hl
      match l with
      | [] =>
          simp only [chunksAux, List.length_nil]
          rw [Nat.div_eq_of_lt (by omega)]
      | a :: as =>
          have hdrop : ((a :: as).drop B).length ≤ n := by
            simp only [List.length_drop, List.length_cons]
            simp only [List.length_cons] at hl
            omega
          simp only [chunksAux, List.length_cons]
          rw [ih _ hdrop]
          simp only [List.length_drop, List.length_cons]
          set L := as.length + 1 with hL
          rcases le_or_lt L B with h | h
          · have h0 : L - B = 0 := by omega
            rw [h0]
            rw [Nat.div_eq_of_lt (by omega)]
            have h4 : (L + B - 1) / B = 1 := by
              have h5 : (L + B - 1) / B = 1 :=
                Nat.div_eq_of_lt_le (by omega) (by omega)
              exact h5
            omega
          · have h1 : L - B + B - 1 = L - 1 := by omega
            have h2 : L + B - 1 = L - 1 + B := by omega
            rw [h1, h2, Nat.add_div_right _ hB]

/-! ### Helper lemmas: node creation counts -/

theorem chunksAux_foldl (f : Graph → Row → Graph) {B : Nat} :
    ∀ (fuel : Nat) (l : List Row) (g : Graph), l.length ≤ fuel → 0 < B →
      (chunksAux B fuel l).foldl (fun h batch => batch.foldl f h) g
        = l.foldl f g := by
  intro fuel
  induction fuel with
  | zero =>
      intro l g hl hB
      match l with
      | [] => rfl
  | succ n ih =>
      intro l g hl hB
      match l with
      | [] => rfl
      | a :: as =>
          have hdrop : ((a :: as).drop B).length ≤ n := by
            simp only [List.length_drop, List.length_cons]
            simp only [List.length_cons] at hl
            omega
          simp only [chunksAux, List.foldl_cons]
          rw [ih _ _ hdrop hB]
          rw [← List.foldl_append, List.take_append_drop]
          rfl

/-- `_load_in_batches` creates nodes exactly as a row-by-row fold does. -/
theorem load_in_batches_eq_foldl (L : Label) (t : Template) (rows : List Row)
    (g : Graph) :
    load_in_batches L t rows g
      = rows.foldl (fun h row => createNode L (mkProps t row) h) g := by
  unfold load_in_batches chunks
  exact chunksAux_foldl _ rows.length rows g le_rfl (by decide)

theorem countLabel_createNode (L L' : Label) (ps : List (String × PropValue))
    (g : Graph) :
    countLabel (createNode L ps g) L'
      = countLabel g L' + (if L = L' then 1 else 0) := by
  unfold countLabel createNode
  simp only [List.filter_append, List.length_append]
  congr 1
  by_cases h : L = L'
  · subst h
    simp [List.filter]
  · simp [List.filter, h]

theorem countLabel_foldl_createNode (L L' : Label) (t : Template) :
    ∀ (rows : List Row) (g : Graph),
      countLabel (rows.foldl (fun h row => createNode L (mkProps t row) h) g) L'
        = countLabel g L' + (if L = L' then rows.length else 0) := by
  intro rows
  induction rows with
  | nil => intro g; simp
  | cons r rs ih =>
      intro g
      simp only [List.foldl_cons, List.length_cons]
      rw [ih, countLabel_createNode]
      by_cases h : L = L'
      · simp only [h, if_pos]
        omega
      · simp [h]

theorem countLabel_load_in_batches (L L' : Label) (t : Template)
    (rows : List Row) (g : Graph) :
    countLabel (load_in_batches L t rows g) L'
      = countLabel g L' + (if L = L' then rows.length else 0) := by
  rw [load_in_batches_eq_foldl, countLabel_foldl_createNode]

/-! ### Helper lemmas: MERGE and relationship passes -/

theorem mergeEdge_nodes (e : Edge) (g : Graph) :
    (mergeEdge e g).nodes = g.nodes := by
  unfold mergeEdge
  split <;> rfl

theorem mergeEdge_nextId (e : Edge) (g : Graph) :
    (mergeEdge e g).nextId = g.nextId := by
  unfold mergeEdge
  split <;> rfl

theorem mergeEdges_nodes : ∀ (es : List Edge) (g : Graph),
    (mergeEdges es g).nodes = g.nodes := by
  intro es
  induction es with
  | nil => intro g; rfl
  | cons e es ih =>
      intro g
      simp only [mergeEdges, List.foldl_cons]
      rw [show (List.foldl (fun h e => mergeEdge e h) (mergeEdge e g) es)
            = mergeEdges es (mergeEdge e g) from rfl]
      rw [ih, mergeEdge_nodes]

theorem relPass_nodes (r : RelRule) (g : Graph) :
    (relPass r g).nodes = g.nodes :=
  mergeEdges_nodes _ g

theorem mergeEdge_mem_self (e : Edge) (g : Graph) :
    e ∈ (mergeEdge e g).edges := by
  unfold mergeEdge
  split
  · assumption
  · simp

theorem mergeEdge_mem_mono {e' : Edge} (e : Edge) (g : Graph)
    (h : e' ∈ g.edges) : e' ∈ (mergeEdge e g).edges := by
  unfold mergeEdge
  split
  · exact h
  · simp [h]

theorem mergeEdges_mem_mono {e' : Edge} : ∀ (es : List Edge) (g : Graph),
    e' ∈ g.edges → e' ∈ (mergeEdges es g).edges := by
  intro es
  induction es with
  | nil => intro g h; exact h
  | cons e es ih =>
      intro g h
      exact ih (mergeEdge e g) (mergeEdge_mem_mono e g h)

theorem mergeEdges_mem_of_mem {e : Edge} : ∀ (es : List Edge) (g : Graph),
    e ∈ es → e ∈ (mergeEdges es g).edges := by
  intro es
  induction es with
  | nil => intro g h; cases h
  | cons e' es ih =>
      intro g h
      rcases List.mem_cons.mp h with h | h
      · subst h
        exact mergeEdges_mem_mono es _ (mergeEdge_mem_self e g)
      · exact ih _ h

theorem mergeEdge_of_mem {e : Edge} {g : Graph} (h : e ∈ g.edges) :
    mergeEdge e g = g := by
  unfold mergeEdge
  simp [h]

theorem mergeEdges_of_forall_mem : ∀ (es : List Edge) (g : Graph),
    (∀ e ∈ es, e ∈ g.edges) → mergeEdges es g = g := by
  intro es
  induction es with
  | nil => intro g _; rfl
  | cons e es ih =>
      intro g h
      simp only [mergeEdges, List.foldl_cons]
      rw [mergeEdge_of_mem (h e (by simp))]
      exact ih g (fun e' he' => h e' (by simp [he']))

/-- The second execution of a relationship pass changes nothing. -/
theorem relPass_idem (r : RelRule) (g : Graph) :
    relPass r (relPass r g) = relPass r g := by
  conv_lhs => rw [relPass, relPass_nodes]
  exact mergeEdges_of_forall_mem _ _
    (fun e he => mergeEdges_mem_of_mem _ g he)

theorem edgeCount_mergeEdge_le_one (e e' : Edge) (g : Graph)
    (h : edgeCount g e' ≤ 1) : edgeCount (mergeEdge e g) e' ≤ 1 := by
  unfold mergeEdge
  split
  · exact h
  · rename_i hnm
    unfold edgeCount at h ⊢
    simp only [List.countP_append]
    by_cases he : e' = e
    · subst he
      have h0 : g.edges.countP (fun x => decide (x = e')) = 0 := by
        rw [List.countP_eq_zero]
        intro a ha
        simp only [decide_eq_true_eq]
        intro hae
        exact hnm (hae ▸ ha)
      simp [h0, List.countP_cons]
    · have h1 : List.countP (fun x => decide (x = e')) [e] = 0 := by
        simp [List.countP_cons, Ne.symm he]
      omega

theorem edgeCount_mergeEdges_le_one (e' : Edge) : ∀ (es : List Edge) (g : Graph),
    edgeCount g e' ≤ 1 → edgeCount (mergeEdges es g) e' ≤ 1 := by
  intro es
  induction es with
  | nil => intro g h; exact h
  | cons e es ih =>
      intro g h
      exact ih _ (edgeCount_mergeEdge_le_one e e' g h)

theorem edgeCount_relPass_le_one (r : RelRule) (g : Graph) (e : Edge)
    (h : edgeCount g e ≤ 1) : edgeCount (relPass r g) e ≤ 1 :=
  edgeCount_mergeEdges_le_one e _ g h

/-! ### Helper lemmas: the property map a CREATE template stores -/

/-- Property lookup in a raw property list, reading absent keys as null. -/
def getPropL (ps : List (String × PropValue)) (k : String) : PropValue :=
  (ps.lookup k).getD .VNull

/-- First template entry for a property key. -/
def tmplLookup : Template → String → Option (Kind × String)
  | [], _ => none
  | (k', kd, col) :: rest, k =>
      if k' = k then some (kd, col) else tmplLookup rest k

/-- The source templates never repeat a property key. -/
abbrev keysNodup (t : Template) : Prop :=
  (t.map (fun e => e.1)).Nodup

theorem isNullV_iff (v : PropValue) : isNullV v = true ↔ v = .VNull := by
  cases v <;> simp [isNullV]

theorem mkProps_cons_null (e : String × Kind × String) (rest : Template)
    (row : Row) (h : isNullV (coerce e.2.1 (cellVal row e.2.2)) = true) :
    mkProps (e :: rest) row = mkProps rest row := by
  unfold mkProps
  simp [List.filter_cons, h]

theorem mkProps_cons_val (e : String × Kind × String) (rest : Template)
    (row : Row) (h : isNullV (coerce e.2.1 (cellVal row e.2.2)) = false) :
    mkProps (e :: rest) row
      = (e.1, coerce e.2.1 (cellVal row e.2.2)) :: mkProps rest row := by
  unfold mkProps
  simp [List.filter_cons, h]

theorem mkProps_keys_sub {t : Template} {row : Row} {k : String}
    (h : k ∉ t.map (fun e => e.1)) : (mkProps t row).lookup k = none := by
  induction t with
  | nil => rfl
  | cons e rest ih =>
      simp only [List.map_cons, List.mem_cons, not_or] at h
      obtain ⟨hk, hrest⟩ := h
      by_cases hv : isNullV (coerce e.2.1 (cellVal row e.2.2)) = true
      · rw [mkProps_cons_null e rest row hv]
        exact ih hrest
      · rw [mkProps_cons_val e rest row (by simpa using hv)]
        simp only [List.lookup]
        rw [show (k == e.1) = false by simpa using hk]
        exact ih hrest

/-- What one CREATE statement stores for a templated key: exactly the
coercion of the corresponding cell, an absent key reading as null. -/
theorem getPropL_mkProps {t : Template} {k : String}
    {kd : Kind} {col : String} (row : Row) (hnd : keysNodup t)
    (hl : tmplLookup t k = some (kd, col)) :
    getPropL (mkProps t row) k = coerce kd (cellVal row col) := by
  induction t with
  | nil => cases hl
  | cons e rest ih =>
      obtain ⟨k', kd', col'⟩ := e
      unfold keysNodup at hnd
      simp only [List.map_cons, List.nodup_cons] at hnd
      obtain ⟨hk', hndrest⟩ := hnd
      by_cases hk : k' = k
      · subst hk
        simp only [tmplLookup, if_pos rfl] at hl
        injection hl with hl'
        cases hl'
        by_cases hv : isNullV (coerce kd (cellVal row col)) = true
        · rw [mkProps_cons_null _ _ _ hv]
          unfold getPropL
          rw [mkProps_keys_sub hk']
          rw [(isNullV_iff _).mp hv]
          rfl
        · rw [mkProps_cons_val _ _ _ (by simpa using hv)]
          unfold getPropL
          simp [List.lookup]
      · simp only [tmplLookup, if_neg hk] at hl
        by_cases hv : isNullV (coerce kd' (cellVal row col')) = true
        · rw [mkProps_cons_null _ _ _ hv]
          exact ih hndrest hl
        · rw [mkProps_cons_val _ _ _ (by simpa using hv)]
          unfold getPropL
          simp only [List.lookup]
          rw [show (k == k') = false by simpa using Ne.symm hk]
          exact ih hndrest hl

/-! ### Helper lemmas: the WHERE filter and unmatched foreign keys -/

/-- Dropping the `WHERE fk IS NOT NULL` filter from a rule changes nothing
on a graph whose scanned nodes all carry a non-null foreign key. -/
theorem relPass_noFilter (r : RelRule) (g : Graph)
    (h : ∀ n ∈ g.nodes, n.label = r.scanLabel →
      isNotNull (getProp n r.fkProp) = true) :
    relPass r g = relPass { r with requireNonNull := false } g := by
  have hscan : g.nodes.filter (scanPred r)
      = g.nodes.filter (scanPred { r with requireNonNull := false }) := by
    apply List.filter_congr
    intro n hn
    by_cases hL : n.label = r.scanLabel
    · have h2 := h n hn hL
      simp [scanPred, hL, h2]
    · simp [scanPred, hL]
  show mergeEdges (matchedEdges r g.nodes) g = _
  unfold matchedEdges
  rw [hscan]
  rfl

/-- The node end a rule scans from, read off an edge of that rule. -/
def scanNid (r : RelRule) (e : Edge) : Nat :=
  if r.scanToMatched then e.src else e.tgt

theorem scanNid_edgeOf (r : RelRule) (s t : Node) :
    scanNid r (edgeOf r s t) = s.nid := by
  unfold scanNid edgeOf
  by_cases h : r.scanToMatched = true <;> simp [h]

/-- The relationships of a rule whose scanned endpoint is a given node id. -/
def edgesOfRuleFrom (r : RelRule) (g : Graph) (i : Nat) : List Edge :=
  g.edges.filter (fun e => decide (scanNid r e = i) && decide (e.typ = r.relType))

theorem mergeEdge_filter_eq (P : Edge → Bool) (e : Edge) (g : Graph)
    (h : P e = false) :
    (mergeEdge e g).edges.filter P = g.edges.filter P := by
  unfold mergeEdge
  split
  · rfl
  · simp [List.filter_append, h]

theorem mergeEdges_filter_eq (P : Edge → Bool) : ∀ (es : List Edge) (g : Graph),
    (∀ e ∈ es, P e = false) →
    (mergeEdges es g).edges.filter P = g.edges.filter P := by
  intro es
  induction es with
  | nil => intro g _; rfl
  | cons e es ih =>
      intro g h
      simp only [mergeEdges, List.foldl_cons]
      rw [show (List.foldl (fun h e => mergeEdge e h) (mergeEdge e g) es)
            = mergeEdges es (mergeEdge e g) from rfl]
      rw [ih _ (fun e' he' => h e' (by simp [he']))]
      exact mergeEdge_filter_eq P e g (h e (by simp))

theorem matchedEdges_mem {r : RelRule} {ns : List Node} {e : Edge}
    (h : e ∈ matchedEdges r ns) :
    ∃ s t, s ∈ ns ∧ scanPred r s = true ∧ t ∈ ns ∧ tgtPred r s t = true ∧
      e = edgeOf r s t := by
  unfold matchedEdges at h
  simp only [List.mem_flatMap, List.mem_map, List.mem_filter] at h
  obtain ⟨s, ⟨hs, hscan⟩, t, ⟨ht, htgt⟩, he⟩ := h
  exact ⟨s, t, hs, hscan, ht, htgt, he.symm⟩

/-- A scanned node with no matching target contributes no relationship:
the edge set of the rule from that node is untouched by the pass. -/
theorem relPass_unmatched (r : RelRule) (g : Graph) (s : Node)
    (hnd : (g.nodes.map Node.nid).Nodup) (hs : s ∈ g.nodes)
    (hun : ∀ t ∈ g.nodes, tgtPred r s t = false) :
    edgesOfRuleFrom r (relPass r g) s.nid = edgesOfRuleFrom r g s.nid := by
  unfold relPass edgesOfRuleFrom
  apply mergeEdges_filter_eq
  intro e he
  obtain ⟨s', t, hs', _hscan, ht, htgt, hedge⟩ := matchedEdges_mem he
  subst hedge
  rw [scanNid_edgeOf]
  by_cases hnid : s'.nid = s.nid
  · have hss : s' = s :=
      List.inj_on_of_nodup_map hnd hs' hs hnid
    subst hss
    rw [hun t ht] at htgt
    cases htgt
  · simp [hnid]

/-! ## The claims -/

set_option maxRecDepth 4000

/-- Claim C2: for every numeric-coerced column (float or integer kind), a
cell whose raw value is missing or the empty string is stored as a null
numeric property on the created node, never as zero, while an
identity-string column value is stored unchanged, including the empty
string. -/
theorem c2_numeric_empty_is_null :
    ∀ (t : Template) (row : Row) (k col : String) (kd : Kind),
    keysNodup t → tmplLookup t k = some (kd, col) →
    (((kd = .float ∨ kd = .integer) →
        (row.lookup col = some none ∨ row.lookup col = some (some "")) →
        getPropL (mkProps t row) k = .VNull
          ∧ (∀ q : Rat, getPropL (mkProps t row) k ≠ .VFloat q)
          ∧ (∀ z : Int, getPropL (mkProps t row) k ≠ .VInt z))
      ∧ (kd = .identity → ∀ c : String, row.lookup col = some (some c) →
          getPropL (mkProps t row) k = .VStr c)) := by
  intro t row k col kd hnd hl
  have hmain := getPropL_mkProps row hnd hl
  constructor
  · intro hkind hcell
    have hc : cellVal row col = some "" := by
      unfold cellVal
      rcases hcell with h | h <;> rw [h]
    rw [hmain, hc]
    have hnull : coerce kd (some "") = .VNull := by
      rcases hkind with h | h <;> subst h <;> decide
    rw [hnull]
    refine ⟨rfl, fun q h => ?_, fun z h => ?_⟩ <;> cases h
  · intro hkd c hcv
    subst hkd
    have hc : cellVal row col = some c := by
      unfold cellVal
      rw [hcv]
    rw [hmain, hc]
    rfl

/-- Witness for C2: in the patient template, an empty INCOME cell is
stored as null (the float column), and an empty SSN cell is stored as the
empty string (an identity column). -/
theorem c2_numeric_empty_is_null_witness :
    getPropL (mkProps patientTemplate [("Id", some "P1"), ("INCOME", some ""),
      ("SSN", some "")]) "income" = .VNull
    ∧ getPropL (mkProps patientTemplate [("Id", some "P1"), ("INCOME", some ""),
      ("SSN", some "")]) "ssn" = .VStr "" :=
  ⟨((c2_numeric_empty_is_null patientTemplate
      [("Id", some "P1"), ("INCOME", some ""), ("SSN", some "")]
      "income" "INCOME" .float (by decide) (by decide)).1
      (Or.inl rfl) (Or.inr rfl)).1,
   (c2_numeric_empty_is_null patientTemplate
      [("Id", some "P1"), ("INCOME", some ""), ("SSN", some "")]
      "ssn" "SSN" .identity (by decide) (by decide)).2 rfl "" rfl⟩

/-- Claim C3: for every entity type, loading N rows creates exactly N new
nodes of that label, regardless of what the store already holds (no
existence check, no merge-on-identity), and relationship passes create no
nodes. -/
theorem c3_one_node_per_row :
    (∀ (L : Label) (t : Template) (rows : List Row) (g : Graph),
        countLabel (load_in_batches L t rows g) L = countLabel g L + rows.length)
    ∧ (∀ (r : RelRule) (g : Graph), (relPass r g).nodes = g.nodes) := by
  constructor
  · intro L t rows g
    rw [countLabel_load_in_batches]
    simp
  · exact relPass_nodes

/-- Claim C4: for M records and batch size B the writer issues exactly
the rounded-up M/B write operations, each chunk has at most B records,
the chunks concatenate back to the input in order, the empty input issues
zero writes, and the default batch size is 1,000. -/
theorem c4_batch_partitioning :
    ∀ (records : List Row) (B : Nat), 0 < B →
    (chunks B records).length = (records.length + B - 1) / B
    ∧ (∀ c ∈ chunks B records, c.length ≤ B)
    ∧ (chunks B records).flatten = records
    ∧ (records = [] → chunks B records = [])
    ∧ batch_size = 1000 := by
  intro records B hB
  refine ⟨chunksAux_length hB records.length records le_rfl,
    fun c hc => chunksAux_mem_length records.length records c hc,
    chunks_join hB records, ?_, rfl⟩
  intro h
  subst h
  rfl

/-- Witness for C4: three records with batch size two give two writes
that concatenate back to the input. -/
theorem c4_batch_partitioning_witness :
    (chunks 2 wRows).length = (wRows.length + 2 - 1) / 2
    ∧ (chunks 2 wRows).flatten = wRows :=
  ⟨(c4_batch_partitioning wRows 2 (by decide)).1,
   (c4_batch_partitioning wRows 2 (by decide)).2.2.1⟩

/-- Claim C5: running the same match-and-connect pass twice over an
unchanged node set creates no duplicate parallel edges: the second
execution changes nothing at all, and when the graph starts with at most
one relationship per (source, target, type) triple this bound still holds
after both executions. -/
theorem c5_edge_idempotence :
    ∀ (r : RelRule) (g : Graph),
    relPass r (relPass r g) = relPass r g
    ∧ (∀ e : Edge, edgeCount g e ≤ 1 →
        edgeCount (relPass r (relPass r g)) e ≤ 1) := by
  intro r g
  refine ⟨relPass_idem r g, fun e he => ?_⟩
  exact edgeCount_relPass_le_one _ _ _ (edgeCount_relPass_le_one _ _ _ he)

/-- Witness for C5: the SECONDARY_INSURANCE pass on the two-node fixture
graph is idempotent and keeps every edge multiplicity at most one. -/
theorem c5_edge_idempotence_witness :
    relPass secondaryInsurance (relPass secondaryInsurance wGraph)
      = relPass secondaryInsurance wGraph
    ∧ edgeCount (relPass secondaryInsurance (relPass secondaryInsurance wGraph))
        ⟨0, .SECONDARY_INSURANCE, 1⟩ ≤ 1 :=
  ⟨(c5_edge_idempotence secondaryInsurance wGraph).1,
   (c5_edge_idempotence secondaryInsurance wGraph).2
     ⟨0, .SECONDARY_INSURANCE, 1⟩ (by decide)⟩

/-- Claim C6: a source node whose foreign-key value is empty, null, or
matches no target node produces no relationship for that row and raises
no error; in particular ten claim rows with three empty secondary-insurer
fields yield ten Claim nodes, ten PRIMARY_INSURANCE relationships and
exactly seven SECONDARY_INSURANCE relationships. -/
theorem c6_unresolved_endpoint :
    (∀ (r : RelRule) (g : Graph) (s : Node),
        (g.nodes.map Node.nid).Nodup → s ∈ g.nodes →
        (∀ t ∈ g.nodes, tgtPred r s t = false) →
        edgesOfRuleFrom r (relPass r g) s.nid = edgesOfRuleFrom r g s.nid)
    ∧ countLabel scenarioGraph .Claim = 10
    ∧ countRel scenarioGraph .PRIMARY_INSURANCE = 10
    ∧ countRel scenarioGraph .SECONDARY_INSURANCE = 7 :=
  ⟨relPass_unmatched, by decide, by decide, by decide⟩

/-- Witness for C6: the claim node with an empty secondary-insurer key
gains no SECONDARY_INSURANCE edge in the fixture graph. -/
theorem c6_unresolved_endpoint_witness :
    edgesOfRuleFrom secondaryInsurance (relPass secondaryInsurance wGraph)
        wClaimNode.nid
      = edgesOfRuleFrom secondaryInsurance wGraph wClaimNode.nid :=
  c6_unresolved_endpoint.1 secondaryInsurance wGraph wClaimNode
    (by decide) (by decide) (by decide)

/-- Counterexample to claim C7: loading a patient row whose LAT cell
holds the non-numeric string abc does not abort the batch; the record is
written (one Patient node exists) with a null lat property, because the
toFloat coercion maps a non-numeric string to null instead of failing. -/
theorem c7_coercion_counterexample :
    countLabel (load_patients [badLatRow] emptyGraph) .Patient = 1
    ∧ (load_patients [badLatRow] emptyGraph).nodes.map (fun n => getProp n "lat")
        = [.VNull]
    ∧ toFloatModel "abc" = .VNull := by
  refine ⟨by decide, by decide, by decide⟩

/-- Claim C7 as amended: a non-empty non-numeric raw value in a numeric
column is not a failure at all; it coerces to null exactly like the empty
string, the containing batch is still written in full, and the run
continues. -/
theorem c7_coercion_amended :
    (∀ (rows : List Row) (g : Graph),
        countLabel (load_patients rows g) .Patient
          = countLabel g .Patient + rows.length)
    ∧ (∀ s : String, parseSigned s.data = none →
        toFloatModel s = .VNull ∧ toIntegerModel s = .VNull) := by
  constructor
  · intro rows g
    unfold load_patients
    rw [countLabel_load_in_batches]
    simp
  · intro s h
    unfold toFloatModel toIntegerModel
    rw [h]
    exact ⟨rfl, rfl⟩

/-- Witness for the amended C7: the non-numeric string abc coerces to
null under both numeric coercions. -/
theorem c7_coercion_amended_witness :
    toFloatModel "abc" = .VNull ∧ toIntegerModel "abc" = .VNull :=
  c7_coercion_amended.2 "abc" (by decide)

/-- Counterexample to claim C8: when every schema statement fails (all
eight constraint and five index statements report an error, as a
malformed statement would), the loads still execute afterwards — the
patient load creates its node — because the source catches every
exception from a schema statement, not only already-exists responses. -/
theorem c8_schema_counterexample :
    (create_constraints badExec).map Prod.snd = List.replicate 8 false
    ∧ (create_indexes badExec).map Prod.snd = List.replicate 5 false
    ∧ countLabel (load_all_data badExec patientOnlyInput emptyGraph).graph
        .Patient = 1 := by
  refine ⟨by decide, by decide, by decide⟩

/-- Claim C8 as amended: every failure of a schema statement, the
already-exists response included, is recovered locally (logged and the
loop continues); all statements are attempted, and the data loads run
identically whatever the schema statement outcomes are. -/
theorem c8_schema_amended :
    ∀ (exec exec' : String → Except String Unit) (input : Input) (g : Graph),
    (load_all_data exec input g).graph = (load_all_data exec' input g).graph
    ∧ (create_constraints exec).length = constraints.length
    ∧ (create_indexes exec).length = indexes.length := by
  intro exec exec' input g
  refine ⟨rfl, ?_, ?_⟩
  · simp [create_constraints]
  · simp [create_indexes]

/-- Claim C9: every relationship pass in the pipeline runs strictly after
the node passes of both of its endpoint labels, the stage sequence
(schema, independent entities, encounters, clinical entities,
insurance and claims) never moves backwards, the trace opens with the
constraint statements, and executing the trace is exactly what
load_all_data does to the graph. -/
theorem c9_pipeline_order :
    relAfterNodes [] fullTrace = true
    ∧ monotoneStages (fullTrace.map stageOf) = true
    ∧ fullTrace.head? = some (.schema constraints)
    ∧ ∀ (exec : String → Except String Unit) (input : Input) (g : Graph),
        (load_all_data exec input g).graph = fullTrace.foldl (execStep input) g := by
  refine ⟨by decide, by decide, rfl, ?_⟩
  intro exec input g
  simp only [load_all_data, fullTrace, List.foldl_cons, List.foldl_nil, execStep,
    templateOf, load_patients, load_organizations, load_providers, load_payers,
    load_encounters, load_conditions, load_medications, load_procedures,
    load_immunizations, load_observations, load_allergies, load_careplans,
    load_devices, load_imaging_studies, load_supplies, load_payer_transitions,
    load_claims, load_claims_transactions]

/-- Counterexample to claim C1: after re-running the full pipeline over
one patient and one encounter, node counts double (two Patient and two
Encounter nodes) but the HAD_ENCOUNTER relationship count is four, not
the unchanged one of the first run, because the second pass also connects
the duplicated node copies. -/
theorem c1_rerun_counterexample :
    countLabel pairRun2 .Patient = 2
    ∧ countLabel pairRun2 .Encounter = 2
    ∧ countRel pairRun1 .HAD_ENCOUNTER = 1
    ∧ countRel pairRun2 .HAD_ENCOUNTER = 4
    ∧ countRel pairRun2 .HAD_ENCOUNTER ≠ countRel pairRun1 .HAD_ENCOUNTER := by
  refine ⟨by decide, by decide, by decide, by decide, by decide⟩

/-- Claim C1 as amended: re-running the full pipeline doubles the node
count of every label and never creates duplicate parallel edges between
the same node pair, but relationship counts grow rather than stay
unchanged: each rule connects every duplicate copy of a matching source
to every duplicate copy of its target, so one patient with one encounter
carries four HAD_ENCOUNTER edges after the second run. -/
theorem c1_rerun_amended :
    (∀ L : Label, countLabel pairRun2 L = 2 * countLabel pairRun1 L)
    ∧ countRel pairRun2 .HAD_ENCOUNTER = 4
    ∧ pairRun2.edges.Nodup := by
  refine ⟨by decide, by decide, by decide⟩

/-- Counterexample to claim C10: a claim row whose DEPARTMENTID cell is
empty creates a Claim node that does not carry the mapped departmentId
key at all, since the null result of the integer coercion is not stored;
so not every created node carries every mapped property key. -/
theorem c10_fillna_counterexample :
    tmplLookup claimTemplate "departmentId" = some (.integer, "DEPARTMENTID")
    ∧ (load_claims [emptyDeptRow] emptyGraph).nodes.map
        (fun n => hasProp n "departmentId") = [false] := by
  refine ⟨by decide, by decide⟩

/-- Claim C10 as amended: a missing cell is replaced by the empty string
before the write, so every string-mapped property is stored non-null
(possibly empty) — only null-valued numeric properties drop their key;
consequently the WHERE foreign-key IS NOT NULL filters, which all guard
string-mapped properties, exclude no source node, and a row with an empty
foreign key is skipped only because no target node has the empty string
as identifier. -/
theorem c10_fillna_amended :
    (∀ (row : Row) (col : String),
        row.lookup col = some none → cellVal row col = some "")
    ∧ (∀ (t : Template) (row : Row) (k col c : String),
        keysNodup t → tmplLookup t k = some (.identity, col) →
        row.lookup col = some (some c) →
        getPropL (mkProps t row) k = .VStr c
          ∧ isNotNull (getPropL (mkProps t row) k) = true)
    ∧ (∀ (r : RelRule) (g : Graph),
        (∀ n ∈ g.nodes, n.label = r.scanLabel →
          isNotNull (getProp n r.fkProp) = true) →
        relPass r g = relPass { r with requireNonNull := false } g)
    ∧ (∀ (r : RelRule) (g : Graph) (s : Node),
        getProp s r.fkProp = .VStr "" →
        (∀ t ∈ g.nodes, getProp t r.tgtId ≠ .VStr "") →
        ∀ t ∈ g.nodes, tgtPred r s t = false) := by
  refine ⟨?_, ?_, relPass_noFilter, ?_⟩
  · intro row col h
    unfold cellVal
    rw [h]
  · intro t row k col c hnd hl hcv
    have hmain := getPropL_mkProps row hnd hl
    have hc : cellVal row col = some c := by
      unfold cellVal
      rw [hcv]
    rw [hmain, hc]
    exact ⟨rfl, rfl⟩
  · intro r g s hfk hno t ht
    unfold tgtPred matchVal
    rw [hfk]
    have hne := hno t ht
    cases hv : getProp t r.tgtId with
    | VNull => simp [isNotNull]
    | VStr sv =>
        have hsv : PropValue.VStr sv ≠ .VStr "" := hv ▸ hne
        simp [isNotNull, hsv]
    | VFloat q => simp [isNotNull]
    | VInt z => simp [isNotNull]

/-- Witness for the amended C10: a medication row with a PAYER cell
stores payerId as a non-null string, and with an empty PAYER foreign key
no payer whose id is PY1 can match. -/
theorem c10_fillna_amended_witness :
    getPropL (mkProps medicationTemplate [("PAYER", some "PY1")]) "payerId"
      = .VStr "PY1"
    ∧ tgtPred paidBy ⟨2, .Medication, [("payerId", .VStr "")]⟩
        ⟨1, .Payer, [("id", .VStr "PY1")]⟩ = false :=
  ⟨(c10_fillna_amended.2.1 medicationTemplate [("PAYER", some "PY1")]
      "payerId" "PAYER" "PY1" (by decide) (by decide) rfl).1,
   c10_fillna_amended.2.2.2 paidBy wGraph ⟨2, .Medication, [("payerId", .VStr "")]⟩
     (by decide) (by decide) ⟨1, .Payer, [("id", .VStr "PY1")]⟩ (by decide)⟩

end Synthea
